import Mathlib

/-!
# Verification of the text-metrics computation engine

Shallow embedding of the `src/text_metrics` package (files `base.py`,
`linguistic_complexity.py`, `stylometric.py`, `udpipe_client.py`,
`lemmatizer.py`, `__init__.py`) together with proofs about the embedded
definitions.

Numeric conventions: Python `float` arithmetic is idealised as exact
rational arithmetic (`ℚ`); Python `round(x, nd)` (round-half-to-even) is
modelled by `pyRound`.  Python `int` becomes `ℤ` (or `ℕ` for counts that
are provably non-negative).  Fallible operations (network calls, external
library parses) are modelled with `Except`, exception oracles being passed
in explicitly.
-/

namespace TextMetrics

/-- Whitespace characters removed by Python `str.strip()` (the ASCII
whitespace set, which is all that matters for the texts in play). -/
def pyIsSpace (c : Char) : Bool :=
  c = ' ' || c = '\t' || c = '\n' || c = '\x0d' || c = '\x0b' || c = '\x0c'

/-- Python `str.strip()`: drop whitespace from both ends. -/
def pyStrip (l : List Char) : List Char :=
  ((l.dropWhile pyIsSpace).reverse.dropWhile pyIsSpace).reverse

/-- Python `str.lower()` restricted to the Latin alphabet that the
syllable counter's character filter can ever keep (A–Z and the accented
vowels of the Portuguese alphabet, plus the cedilla).  All other
characters are left unchanged; since the estimator's subsequent filter
discards every character outside `a–z` plus the accented lowercase
vowels, this restriction is observationally equivalent to full Unicode
lowercasing for that code path. -/
def pyLowerChar (c : Char) : Char :=
  match c with
  | 'A' => 'a' | 'B' => 'b' | 'C' => 'c' | 'D' => 'd' | 'E' => 'e'
  | 'F' => 'f' | 'G' => 'g' | 'H' => 'h' | 'I' => 'i' | 'J' => 'j'
  | 'K' => 'k' | 'L' => 'l' | 'M' => 'm' | 'N' => 'n' | 'O' => 'o'
  | 'P' => 'p' | 'Q' => 'q' | 'R' => 'r' | 'S' => 's' | 'T' => 't'
  | 'U' => 'u' | 'V' => 'v' | 'W' => 'w' | 'X' => 'x' | 'Y' => 'y'
  | 'Z' => 'z'
  | 'Á' => 'á' | 'É' => 'é' | 'Í' => 'í' | 'Ó' => 'ó' | 'Ú' => 'ú'
  | 'À' => 'à' | 'È' => 'è' | 'Ì' => 'ì' | 'Ò' => 'ò' | 'Ù' => 'ù'
  | 'Â' => 'â' | 'Ê' => 'ê' | 'Î' => 'î' | 'Ô' => 'ô' | 'Û' => 'û'
  | 'Ã' => 'ã' | 'Õ' => 'õ' | 'Ç' => 'ç'
  | _ => c

/-- Python `str.lower()` on a character list. -/
def pyLower (l : List Char) : List Char := l.map pyLowerChar

/-- The keep-class of the regex `[^a-záéíóúàèìòùâêîôûãõ]` substitution in
`_count_syllables_pt`: lowercase ASCII letters and the accented vowels. -/
def isRegexKept (c : Char) : Bool :=
  ('a' ≤ c && c ≤ 'z') ||
    ['á','é','í','ó','ú','à','è','ì','ò','ù','â','ê','î','ô','û','ã','õ'].contains c

/-- The vowel string of `_count_syllables_pt`. -/
def vowelsPT : List Char := "aeiouáéíóúàèìòùâêîôûãõ".data

/-- Membership in `vowelsPT` (Python `char in vowels`). -/
def isVowelPT (c : Char) : Bool := vowelsPT.contains c

/-- The character scan of `_count_syllables_pt`: count positions where a
vowel is entered (a vowel whose predecessor was not a vowel), given the
`previous_was_vowel` flag carried into the remaining characters. -/
def vowelTransitions : List Char → Bool → ℤ
  | [], _ => 0
  | c :: cs, prev =>
    (if isVowelPT c && !prev then 1 else 0) + vowelTransitions cs (isVowelPT c)

/-- Number of positions of `hay` at which `needle` occurs.  For the seven
diphthong bigrams below (whose two characters always differ) occurrences
can never overlap, so this equals Python's non-overlapping
`str.count`. -/
def countSubAt (needle : List Char) : List Char → ℤ
  | [] => 0
  | c :: rest => (if needle.isPrefixOf (c :: rest) then 1 else 0) + countSubAt needle rest

/-- The diphthong list of `_count_syllables_pt`. -/
def diphthongs : List (List Char) := ["ai", "au", "ei", "eu", "oi", "ou", "ui"].map String.data

/-- Shallow embedding of `BaseAnalyzer._count_syllables_pt`
(`src/text_metrics/base.py`): lowercase and strip; return 0 when nothing
remains; strip non-letter characters, returning 1 when nothing remains;
count vowel-group entries; subtract substring-counted diphthongs; clamp
to a minimum of 1. -/
def _count_syllables_pt (word : String) : ℤ :=
  let w := pyStrip (pyLower word.data)
  if w = [] then 0
  else
    let cleaned := w.filter isRegexKept
    if cleaned = [] then 1
    else
      let syllable_count := vowelTransitions cleaned false
      let corrected := syllable_count - (diphthongs.map (fun d => countSubAt d cleaned)).sum
      max 1 corrected

/-! ## Rounding and numpy aggregates -/

/-- Round a rational to the nearest integer, ties to even — the rounding
mode of Python's built-in `round`. -/
def rhe (x : ℚ) : ℤ :=
  let f := ⌊x⌋
  if x - f < 1 / 2 then f
  else if 1 / 2 < x - f then f + 1
  else if 2 ∣ f then f else f + 1

/-- Python `round(x, nd)` idealised over `ℚ`. -/
def pyRound (x : ℚ) (nd : ℕ) : ℚ := (rhe (x * 10 ^ nd) : ℚ) / 10 ^ nd

/-- `numpy.mean` of a list of naturals, as a rational. -/
def npMean (l : List ℕ) : ℚ := (l.sum : ℚ) / l.length

/-- `numpy.var` (population variance) of a list of naturals. -/
def npVar (l : List ℕ) : ℚ :=
  ((l.map (fun x => ((x : ℚ) - npMean l) ^ 2)).sum) / l.length

/-! ## Data model: tokens, sentences, dependency trees -/

/-- One CoNLL-U token as consumed by the metrics code: surface form,
lemma, universal POS tag and dependency relation. -/
structure UToken where
  form : String
  lemmaStr : String
  upos : String
  deprel : String
deriving DecidableEq

/-- Dependency-tree view of a sentence (the result of conllu's
`TokenList.to_tree`): a token with its child subtrees. -/
inductive DepTree where
  | node : UToken → List DepTree → DepTree

/-- A parsed sentence: ordered token sequence plus its dependency-tree
view (spec §3: "ordered sequence of Tokens plus a dependency tree
view"); the tree is what `sent.to_tree()` yields in the source. -/
structure USentence where
  tokens : List UToken
  tree : DepTree

/-- Python substring test `needle in hay`. -/
def containsSub (needle : List Char) : List Char → Bool
  | [] => needle.isPrefixOf []
  | c :: rest => needle.isPrefixOf (c :: rest) || containsSub needle rest

/-! ## Linguistic Complexity Analyzer
(`src/text_metrics/linguistic_complexity.py`) -/

/-- `is_clause` helper: deprel contains one of the clause relations as a
substring. -/
def is_clause (t : UToken) : Bool :=
  (["csubj", "ccomp", "xcomp", "advcl", "acl"].map String.data).any
    (fun d => containsSub d t.deprel.data)

/-- `is_dependent_clause` helper. -/
def is_dependent_clause (t : UToken) : Bool :=
  (["advcl", "acl"].map String.data).any (fun d => containsSub d t.deprel.data)

/-- `is_coordination` helper. -/
def is_coordination (t : UToken) : Bool :=
  (["conj", "cc"].map String.data).any (fun d => containsSub d t.deprel.data)

/-- `is_lexical` helper: POS tag in NOUN/ADJ/VERB. -/
def is_lexical (t : UToken) : Bool :=
  ["NOUN", "ADJ", "VERB"].contains t.upos

mutual

/-- `profundidade_maxima`: 0 for a leaf, otherwise 1 + the deepest
child.  `maxDepthList c cs` is Python's `max([...])` over the non-empty
child list `c :: cs`. -/
def profundidade_maxima : DepTree → ℕ
  | .node _ [] => 0
  | .node _ (c :: cs) => 1 + maxDepthList c cs
termination_by t => sizeOf t

/-- Maximum of `profundidade_maxima` over a non-empty list of trees. -/
def maxDepthList : DepTree → List DepTree → ℕ
  | c, [] => profundidade_maxima c
  | c, d :: ds => max (profundidade_maxima c) (maxDepthList d ds)
termination_by c cs => 1 + sizeOf c + sizeOf cs

end

/-- `total_clauses` of `_analyze_sentences`. -/
def total_clauses (sentences : List USentence) : ℕ :=
  (sentences.map (fun s => (s.tokens.filter is_clause).length)).sum

/-- `total_dependent_clauses` of `_analyze_sentences`. -/
def total_dependent_clauses (sentences : List USentence) : ℕ :=
  (sentences.map (fun s => (s.tokens.filter is_dependent_clause).length)).sum

/-- `total_coordinated` of `_analyze_sentences`. -/
def total_coordinated (sentences : List USentence) : ℕ :=
  (sentences.map (fun s => (s.tokens.filter is_coordination).length)).sum

/-- `total_tokens` of `_analyze_sentences`: tokens whose deprel is not
exactly "punct". -/
def total_tokens (sentences : List USentence) : ℕ :=
  (sentences.map (fun s => (s.tokens.filter (fun t => t.deprel ≠ "punct")).length)).sum

/-- The `depths` list of `_analyze_sentences`. -/
def depthsOf (sentences : List USentence) : List ℕ :=
  sentences.map (fun s => profundidade_maxima s.tree)

/-- The content-token surface-form list used for the TTR. -/
def contentForms (sentences : List USentence) : List String :=
  ((sentences.map (fun s => s.tokens.filter (fun t => t.deprel ≠ "punct"))).flatten).map
    (fun t => t.form)

/-- `lexical_count` of `_analyze_sentences`. -/
def lexical_count (sentences : List USentence) : ℕ :=
  (sentences.map (fun s => (s.tokens.filter is_lexical).length)).sum

/-- A metric value: Python float (idealised as `ℚ`), int, or string. -/
inductive MValue where
  | F : ℚ → MValue
  | I : ℤ → MValue
  | S : String → MValue
deriving DecidableEq

/-- A MetricsRecord: insertion-ordered key/value mapping, modelling a
Python dict. -/
abbrev MetricsRecord := List (String × MValue)

/-- Python `d[k] = v`: overwrite in place when the key exists, append
otherwise. -/
def dictSet (d : MetricsRecord) (k : String) (v : MValue) : MetricsRecord :=
  if d.any (fun p => p.1 == k) then
    d.map (fun p => if p.1 == k then (k, v) else p)
  else d ++ [(k, v)]

/-- Python `d.update(u)` applied pairwise in `u`'s order. -/
def dictUpdate (d : MetricsRecord) (u : MetricsRecord) : MetricsRecord :=
  u.foldl (fun acc p => dictSet acc p.1 p.2) d

/-- The key list of a record. -/
def keysOf (d : MetricsRecord) : List String := d.map Prod.fst

/-- Python `d.get(k)` / `d[k]` lookup. -/
def dictGet (d : MetricsRecord) (k : String) : Option MValue :=
  (d.find? (fun p => p.1 == k)).map Prod.snd

/-- The `ttr` local of `_analyze_sentences`: distinct content surface
forms over content tokens, or 0 when there are none. -/
def ttrValue (sentences : List USentence) : ℚ :=
  if contentForms sentences ≠ [] then
    ((contentForms sentences).dedup.length : ℚ) / (contentForms sentences).length
  else 0

/-- The `lexical_density` local of `_analyze_sentences`: lexical tokens
over content tokens, or 0 when there are no content tokens. -/
def lexicalDensityValue (sentences : List USentence) : ℚ :=
  if total_tokens sentences > 0 then
    (lexical_count sentences : ℚ) / (total_tokens sentences : ℚ)
  else 0

/-- `LinguisticComplexityAnalyzer._analyze_sentences`: the nine
dependency-based metrics, in the source's insertion order. -/
def _analyze_sentences (sentences : List USentence) : MetricsRecord :=
  let depths := depthsOf sentences
  [("MLC", .F (pyRound (if total_clauses sentences > 0 then
       (total_tokens sentences : ℚ) / (total_clauses sentences : ℚ) else 0) 2)),
   ("MLS", .F (pyRound (if sentences.length > 0 then
       (total_tokens sentences : ℚ) / (sentences.length : ℚ) else 0) 2)),
   ("DCC", .F (pyRound (if total_clauses sentences > 0 then
       (total_dependent_clauses sentences : ℚ) / (total_clauses sentences : ℚ) else 0) 2)),
   ("CPC", .F (pyRound (if total_clauses sentences > 0 then
       (total_coordinated sentences : ℚ) / (total_clauses sentences : ℚ) else 0) 2)),
   ("profundidade_media", .F (if depths ≠ [] then pyRound (npMean depths) 2 else 0)),
   ("profundidade_max", .I (if depths ≠ [] then ((depths.foldl max 0 : ℕ) : ℤ) else 0)),
   ("ttr", .F (pyRound (ttrValue sentences) 4)),
   ("lexical_density", .F (pyRound (lexicalDensityValue sentences) 4)),
   ("token_quantity", .I (total_tokens sentences))]

/-- `LinguisticComplexityAnalyzer._get_base_metrics`. -/
def _get_base_metrics : MetricsRecord :=
  [("MLC", .F 0), ("MLS", .F 0), ("DCC", .F 0), ("CPC", .F 0),
   ("profundidade_media", .F 0), ("profundidade_max", .I 0),
   ("ttr", .F 0), ("lexical_density", .F 0), ("token_quantity", .I 0)]

/-- `LinguisticComplexityAnalyzer.analyze`: empty input yields the base
metrics; otherwise `_analyze_sentences` (which, over this total model,
cannot raise, so the source's catch-all adds nothing). -/
def LinguisticComplexityAnalyzer.analyze (sentences : List USentence) : MetricsRecord :=
  if sentences.isEmpty then _get_base_metrics else _analyze_sentences sentences

/-! ## Lemma Extractor (`src/text_metrics/udpipe_client.py`) -/

/-- `extract_lemmas_string`: iterate all tokens in sentence order,
skip deprel exactly "punct" or exactly "nummod", join the surviving
lemma forms with single spaces. -/
def extract_lemmas_string (sentences : List USentence) : String :=
  let lemmas := sentences.foldl (fun acc sentence =>
    sentence.tokens.foldl (fun acc token =>
      if token.deprel = "punct" then acc
      else if token.deprel = "nummod" then acc
      else acc ++ [token.lemmaStr]) acc) []
  String.intercalate " " lemmas

/-- Spec-side description of the surviving tokens of the Lemma
Extractor: all tokens in sentence-and-token order whose relation is
neither exactly "punct" nor exactly "nummod". -/
def survivingTokens (sentences : List USentence) : List UToken :=
  ((sentences.map USentence.tokens).flatten).filter
    (fun t => !(t.deprel == "punct") && !(t.deprel == "nummod"))

/-! ## UDPipe client retry loop (`src/text_metrics/udpipe_client.py`) -/

/-- Outcome of one HTTP attempt of `UDPipeClient.generate_one_response`:
a timeout, a transport-level error, or a response carrying a status code
and (if the JSON body has one) the `result` field. -/
inductive AttemptOutcome where
  | timeout
  | transportError
  | response (status : ℕ) (result? : Option String)
deriving DecidableEq

/-- One run of the `for attempt in range(max_retries)` loop of
`generate_one_response`, driven by the list of per-attempt outcomes
(`outcomes.length = max_retries`, head = first attempt).  The Python
retry condition `attempt < max_retries - 1` is exactly "the outcome list
has a tail".  Non-200 statuses and missing `result` fields raise generic
exceptions in the source, which the catch-all `except Exception` branch
handles with the same retry decision as timeouts and transport errors.
Returns the result together with the number of attempts performed. -/
def generate_one_response : List AttemptOutcome → Except String String × ℕ
  | [] => (.error "All retry attempts failed", 0)
  | o :: rest =>
    match o with
    | .response status result? =>
      if status ≠ 200 then
        if rest = [] then (.error "HTTP Error", 1)
        else
          let r := generate_one_response rest
          (r.1, r.2 + 1)
      else
        match result? with
        | none =>
          if rest = [] then (.error "No result in response", 1)
          else
            let r := generate_one_response rest
            (r.1, r.2 + 1)
        | some result => (.ok result, 1)
    | .timeout =>
      if rest = [] then (.error "Request timed out after all retries", 1)
      else
        let r := generate_one_response rest
        (r.1, r.2 + 1)
    | .transportError =>
      if rest = [] then (.error "Request failed after all retries", 1)
      else
        let r := generate_one_response rest
        (r.1, r.2 + 1)

/-- The annotation a successful attempt returns (a 200 response whose
payload carries a `result` field). -/
def attemptResult : AttemptOutcome → Option String
  | .response status result? => if status = 200 then result? else none
  | _ => none

/-- An attempt outcome that the source code treats as a failure (it
either raises in one of the `except` handlers or raises a generic
exception in the try body): anything but a 200 response whose payload
carries a `result` field. -/
def attemptFails (o : AttemptOutcome) : Bool := (attemptResult o).isNone

/-! ## Stylometric Analyzer (`src/text_metrics/stylometric.py`) -/

/-- A spaCy token as consumed by the stylometric code. -/
structure SToken where
  text : String
  pos : String
  is_punct : Bool
  is_space : Bool

/-- A spaCy `Doc`: sentence segmentation (each token belongs to exactly
one sentence, so the token stream is the concatenation) and the entity
labels of `doc.ents`. -/
structure SpacyDoc where
  sents : List (List SToken)
  entLabels : List String

/-- `for token in doc`: the token stream. -/
def SpacyDoc.tokens (d : SpacyDoc) : List SToken := d.sents.flatten

/-- The token filter used throughout the stylometric analyzer:
`not token.is_punct and not token.is_space`. -/
def isWordToken (t : SToken) : Bool := !t.is_punct && !t.is_space

/-- `StylometricAnalyzer._calculate_pos_frequencies`. -/
def _calculate_pos_frequencies (doc : SpacyDoc) : MetricsRecord :=
  let tokens := doc.tokens.filter isWordToken
  if tokens.length = 0 then
    [("noun_freq", .F 0), ("verb_freq", .F 0), ("adj_freq", .F 0), ("adv_freq", .F 0)]
  else
    let freq := fun (tag : String) =>
      pyRound (((tokens.filter (fun t => t.pos == tag)).length : ℚ) / tokens.length * 100) 2
    [("noun_freq", .F (freq "NOUN")), ("verb_freq", .F (freq "VERB")),
     ("adj_freq", .F (freq "ADJ")), ("adv_freq", .F (freq "ADV"))]

/-- `StylometricAnalyzer._extract_named_entities`: bucket the entity
labels into person / organization / location counters; other labels are
ignored. -/
def _extract_named_entities (doc : SpacyDoc) : MetricsRecord :=
  let counts := doc.entLabels.foldl (fun (acc : ℤ × ℤ × ℤ) label =>
    if label = "PER" ∨ label = "PERSON" then (acc.1 + 1, acc.2.1, acc.2.2)
    else if label = "ORG" then (acc.1, acc.2.1 + 1, acc.2.2)
    else if label = "LOC" ∨ label = "GPE" ∨ label = "PLACE" then (acc.1, acc.2.1, acc.2.2 + 1)
    else acc) (0, 0, 0)
  [("per_count", .I counts.1), ("org_count", .I counts.2.1), ("loc_count", .I counts.2.2)]

/-- `StylometricAnalyzer._calculate_lexical_metrics`. -/
def _calculate_lexical_metrics (doc : SpacyDoc) : MetricsRecord :=
  let tokens := doc.tokens.filter isWordToken
  if tokens.length = 0 then
    [("avg_word_length", .F 0), ("long_words_ratio", .F 0)]
  else
    let word_lengths := tokens.map (fun t => t.text.length)
    let long_words := tokens.filter (fun t => t.text.length > 6)
    [("avg_word_length", .F (pyRound (npMean word_lengths) 2)),
     ("long_words_ratio", .F (pyRound ((long_words.length : ℚ) / tokens.length * 100) 2))]

/-- `StylometricAnalyzer._calculate_flesch_reading_ease`: 0 when there
are no sentences or no word tokens, otherwise the adapted Portuguese
Flesch formula over the word/sentence/syllable counts, rounded to two
decimals. -/
def _calculate_flesch_reading_ease (doc : SpacyDoc) : ℚ :=
  let total_sentences := doc.sents.length
  if total_sentences = 0 then 0
  else
    let words := doc.tokens.filter isWordToken
    let total_words := words.length
    if total_words = 0 then 0
    else
      let total_syllables := (words.map (fun t => _count_syllables_pt t.text)).sum
      let avg_sentence_length : ℚ := (total_words : ℚ) / (total_sentences : ℚ)
      let avg_syllables_per_word : ℚ := (total_syllables : ℚ) / (total_words : ℚ)
      let fre_score := 248.835 - (1.015 * avg_sentence_length) - (84.6 * avg_syllables_per_word)
      pyRound fre_score 2

/-- `StylometricAnalyzer._calculate_syntactic_metrics`. -/
def _calculate_syntactic_metrics (doc : SpacyDoc) : MetricsRecord :=
  let sentence_lengths := doc.sents.map (fun sent => (sent.filter isWordToken).length)
  let slv : ℚ :=
    if sentence_lengths.length > 1 then pyRound (npVar sentence_lengths) 2 else 0
  let total := (doc.tokens.filter (fun t => !t.is_space)).length
  let punct := (doc.tokens.filter (fun t => t.is_punct)).length
  let pr : ℚ := if total > 0 then pyRound ((punct : ℚ) / total * 100) 2 else 0
  [("sentence_length_variance", .F slv), ("punctuation_ratio", .F pr)]

/-- `StylometricAnalyzer._get_stylometric_metrics`: the all-default
stylometric record. -/
def _get_stylometric_metrics : MetricsRecord :=
  [("noun_freq", .F 0), ("verb_freq", .F 0), ("adj_freq", .F 0), ("adv_freq", .F 0),
   ("per_count", .I 0), ("org_count", .I 0), ("loc_count", .I 0),
   ("avg_word_length", .F 0), ("long_words_ratio", .F 0),
   ("flesch_reading_ease", .F 0),
   ("sentence_length_variance", .F 0), ("punctuation_ratio", .F 0)]

/-- `StylometricAnalyzer.analyze`: empty/whitespace text or a raising
NLP pipeline (`docResult = .error`) degrades to the all-default record;
otherwise the five metric groups are merged in source order.  The
`docResult` parameter is the outcome of `self.nlp(text)`, the only
fallible step of the method body. -/
def StylometricAnalyzer.analyze (text : String) (docResult : Except String SpacyDoc) :
    MetricsRecord :=
  if pyStrip text.data = [] then _get_stylometric_metrics
  else
    match docResult with
    | .error _ => _get_stylometric_metrics
    | .ok doc =>
      let m := dictUpdate [] (_calculate_pos_frequencies doc)
      let m := dictUpdate m (_extract_named_entities doc)
      let m := dictUpdate m (_calculate_lexical_metrics doc)
      let m := dictSet m "flesch_reading_ease" (.F (_calculate_flesch_reading_ease doc))
      dictUpdate m (_calculate_syntactic_metrics doc)

/-! ## Lemmatizer and Orchestrator
(`src/text_metrics/lemmatizer.py`, `src/text_metrics/__init__.py`) -/

/-- Exception oracle for one `TextMetricsAnalyzer.analyze` call: the
outcomes of the fallible external operations (the UDPipe HTTP fetch, the
two independent `conllu.parse` calls — the orchestrator's and the
lemmatizer's own — and the spaCy pipeline run). -/
structure Env where
  fetchResult : Except String String
  parseResult : String → Except String (List USentence)
  lemmaParseResult : String → Except String (List USentence)
  docResult : Except String SpacyDoc

/-- `LemmatizerAnalyzer.analyze`: empty text short-circuits; otherwise
fetch the annotation when absent, re-parse it, extract the lemma string;
any failure is caught and degrades to `{"lemmas": ""}`. -/
def LemmatizerAnalyzer.analyze (env : Env) (text : String) (udpipe_output : Option String) :
    MetricsRecord :=
  if pyStrip text.data = [] then [("lemmas", .S "")]
  else
    let fetched : Except String String :=
      match udpipe_output with
      | none => env.fetchResult
      | some o => .ok o
    match fetched with
    | .error _ => [("lemmas", .S "")]
    | .ok o =>
      match env.lemmaParseResult o with
      | .error _ => [("lemmas", .S "")]
      | .ok sentences => [("lemmas", .S (extract_lemmas_string sentences))]

/-- `BaseAnalyzer._get_empty_metrics`: the complete 22-key default
record. -/
def _get_empty_metrics : MetricsRecord :=
  [("MLC", .F 0), ("MLS", .F 0), ("DCC", .F 0), ("CPC", .F 0),
   ("profundidade_media", .F 0), ("profundidade_max", .I 0),
   ("ttr", .F 0), ("lexical_density", .F 0), ("token_quantity", .I 0),
   ("noun_freq", .F 0), ("verb_freq", .F 0), ("adj_freq", .F 0), ("adv_freq", .F 0),
   ("avg_word_length", .F 0), ("long_words_ratio", .F 0),
   ("sentence_length_variance", .F 0), ("punctuation_ratio", .F 0),
   ("flesch_reading_ease", .F 0),
   ("per_count", .I 0), ("org_count", .I 0), ("loc_count", .I 0),
   ("lemmas", .S "")]

/-- The §6 schema: the exact key set of a MetricsRecord. -/
def metricKeys : List String := keysOf _get_empty_metrics

/-- `TextMetricsAnalyzer.analyze` (`src/text_metrics/__init__.py`):
empty/whitespace text returns the full-default record immediately; the
body runs under a catch-all that also degrades to the full-default
record, and the only operations that can raise inside it are the UDPipe
fetch and the orchestrator's `parse_response` (the component analyzers
catch their own exceptions). -/
def TextMetricsAnalyzer.analyze (env : Env) (udpipe_enabled : Bool) (text : String)
    (udpipe_output : Option String) (include_ner : Bool) (include_lemmatization : Bool) :
    MetricsRecord :=
  if pyStrip text.data = [] then _get_empty_metrics
  else
    let body : Except String MetricsRecord :=
      if udpipe_enabled then
        let fetched : Except String String :=
          match udpipe_output with
          | none => env.fetchResult
          | some o => .ok o
        match fetched with
        | .error e => .error e
        | .ok udpipe_out =>
          match env.parseResult udpipe_out with
          | .error e => .error e
          | .ok sentences =>
            let m := dictUpdate [] (LinguisticComplexityAnalyzer.analyze sentences)
            let m :=
              if include_lemmatization then
                dictUpdate m (LemmatizerAnalyzer.analyze env text (some udpipe_out))
              else dictSet m "lemmas" (.S "")
            .ok m
      else
        let m := dictSet [] "lemmas" (.S "")
        .ok (dictUpdate m
          [("MLC", .F 0), ("MLS", .F 0), ("DCC", .F 0), ("CPC", .F 0),
           ("profundidade_media", .F 0), ("profundidade_max", .I 0),
           ("ttr", .F 0), ("lexical_density", .F 0), ("token_quantity", .I 0)])
    match body with
    | .error _ => _get_empty_metrics
    | .ok m =>
      let stylometric_metrics := StylometricAnalyzer.analyze text env.docResult
      let stylometric_metrics :=
        if include_ner then stylometric_metrics
        else
          dictSet (dictSet (dictSet stylometric_metrics
            "per_count" (.I 0)) "org_count" (.I 0)) "loc_count" (.I 0)
      dictUpdate m stylometric_metrics

/-! ## Concrete fixtures for witness instantiations -/

/-- A one-token sentence used by concrete witnesses. -/
def exSentenceGato : USentence :=
  ⟨[⟨"gato", "gato", "NOUN", "nsubj"⟩], DepTree.node ⟨"gato", "gato", "NOUN", "nsubj"⟩ []⟩

/-- Benign exception oracle: every external operation succeeds. -/
def exEnvOk : Env :=
  ⟨.ok "", fun _ => .ok [exSentenceGato], fun _ => .ok [exSentenceGato], .ok ⟨[], []⟩⟩

/-- Oracle whose UDPipe fetch raises. -/
def exEnvFetchFail : Env :=
  ⟨.error "boom", fun _ => .ok [exSentenceGato], fun _ => .ok [exSentenceGato], .ok ⟨[], []⟩⟩

/-- Oracle whose lemmatizer-side re-parse raises while the
orchestrator-side parse succeeds. -/
def exEnvLemmaFail : Env :=
  ⟨.ok "", fun _ => .ok [exSentenceGato], fun _ => .error "boom", .ok ⟨[], []⟩⟩

/-! ## Helper lemmas for the syllable estimator -/

theorem pyIsSpace_pyLowerChar (c : Char) : pyIsSpace (pyLowerChar c) = pyIsSpace c := by
  unfold pyLowerChar
  split <;> rfl

theorem dropWhile_eq_nil_iff_all (p : Char → Bool) (l : List Char) :
    l.dropWhile p = [] ↔ l.all p := by
  induction l with
  | nil => simp
  | cons c cs ih =>
    by_cases h : p c <;> simp [List.dropWhile, h, ih]

theorem pyStrip_eq_nil_iff (l : List Char) : pyStrip l = [] ↔ l.all pyIsSpace := by
  unfold pyStrip
  rw [List.reverse_eq_nil_iff, dropWhile_eq_nil_iff_all, List.all_reverse]
  constructor
  · intro h
    rw [List.all_eq_true]
    intro c hc
    rw [← List.takeWhile_append_dropWhile (p := pyIsSpace) (l := l)] at hc
    rcases List.mem_append.mp hc with hmem | hmem
    · exact List.mem_takeWhile_imp hmem
    · exact (List.all_eq_true.mp h) c hmem
  · intro h
    rw [List.all_eq_true] at h ⊢
    intro c hc
    exact h c ((List.dropWhile_sublist (l := l) (p := pyIsSpace)).subset hc)

theorem pyStrip_pyLower_eq_nil_iff (l : List Char) :
    pyStrip (pyLower l) = [] ↔ l.all pyIsSpace := by
  have hfun : (pyIsSpace ∘ pyLowerChar) = pyIsSpace := by
    funext c
    simp [Function.comp, pyIsSpace_pyLowerChar]
  rw [pyStrip_eq_nil_iff]
  unfold pyLower
  rw [List.all_map, hfun]

/-- C3: the Syllable Estimator returns an integer ≥ 1 whenever the
lower-cased, stripped word is non-empty (equivalently: whenever the input
is not empty/whitespace-only, since lowercasing preserves whitespace),
returns 0 exactly when the input is empty or whitespace-only, and in
particular returns 2 for "casa", 1 for "não" and 0 for "". -/
theorem claim_C3_syllable_estimator :
    (∀ w : String, _count_syllables_pt w = 0 ↔ w.data.all pyIsSpace) ∧
    (∀ w : String, ¬ (w.data.all pyIsSpace = true) → 1 ≤ _count_syllables_pt w) ∧
    _count_syllables_pt "casa" = 2 ∧ _count_syllables_pt "não" = 1 ∧
    _count_syllables_pt "" = 0 := by
  refine ⟨?_, ?_, by decide, by decide, by decide⟩
  · intro w
    rw [← pyStrip_pyLower_eq_nil_iff]
    simp only [_count_syllables_pt]
    by_cases h : pyStrip (pyLower w.data) = []
    · simp [h]
    · rw [if_neg h]
      constructor
      · intro hc
        exfalso
        by_cases h2 : List.filter isRegexKept (pyStrip (pyLower w.data)) = []
        · rw [if_pos h2] at hc
          exact one_ne_zero hc
        · rw [if_neg h2] at hc
          omega
      · intro hc
        exact absurd hc h
  · intro w hw
    have h : pyStrip (pyLower w.data) ≠ [] := fun hh =>
      hw ((pyStrip_pyLower_eq_nil_iff w.data).mp hh)
    simp only [_count_syllables_pt]
    rw [if_neg h]
    by_cases h2 : List.filter isRegexKept (pyStrip (pyLower w.data)) = []
    · rw [if_pos h2]
    · rw [if_neg h2]
      exact le_max_left _ _

/-- Witness for C3 at the concrete input "casa". -/
theorem claim_C3_syllable_estimator_witness :
    ¬ ("casa".data.all pyIsSpace = true) ∧ 1 ≤ _count_syllables_pt "casa" :=
  ⟨by decide, claim_C3_syllable_estimator.2.1 "casa" (by decide)⟩

/-! ## Bounds on the rounding function -/

theorem rhe_intCast (n : ℤ) : rhe (n : ℚ) = n := by
  simp only [rhe]
  rw [Int.floor_intCast]
  norm_num

theorem floor_le_rhe (x : ℚ) : ⌊x⌋ ≤ rhe x := by
  simp only [rhe]
  split
  · exact le_refl _
  · split
    · omega
    · split <;> omega

theorem rhe_le_ceil (x : ℚ) : rhe x ≤ ⌈x⌉ := by
  simp only [rhe]
  by_cases h1 : x - ⌊x⌋ < 1 / 2
  · rw [if_pos h1]
    exact Int.floor_le_ceil x
  · rw [if_neg h1]
    push_neg at h1
    have hx : (⌊x⌋ : ℚ) < x := by linarith
    have hlt : ⌊x⌋ < ⌈x⌉ := by exact_mod_cast lt_of_lt_of_le hx (Int.le_ceil x)
    split
    · omega
    · split <;> omega

theorem rhe_zero : rhe 0 = 0 := by
  have := rhe_intCast 0
  simpa using this

theorem pyRound_zero (nd : ℕ) : pyRound 0 nd = 0 := by
  simp [pyRound, rhe_zero]

theorem pyRound_intCast (n : ℤ) (nd : ℕ) : pyRound (n : ℚ) nd = n := by
  unfold pyRound
  have h : ((n : ℚ) * 10 ^ nd) = ((n * 10 ^ nd : ℤ) : ℚ) := by push_cast; ring
  rw [h, rhe_intCast]
  push_cast
  field_simp

theorem pyRound_nonneg (x : ℚ) (nd : ℕ) (hx : 0 ≤ x) : 0 ≤ pyRound x nd := by
  unfold pyRound
  apply div_nonneg _ (by positivity)
  have hx10 : (0 : ℚ) ≤ x * 10 ^ nd := mul_nonneg hx (by positivity)
  have h0 : (0 : ℤ) ≤ ⌊x * 10 ^ nd⌋ := Int.floor_nonneg.mpr hx10
  exact_mod_cast le_trans h0 (floor_le_rhe (x * 10 ^ nd))

theorem pyRound_le_int (x : ℚ) (nd : ℕ) (m : ℤ) (h : x ≤ m) : pyRound x nd ≤ m := by
  unfold pyRound
  rw [div_le_iff₀ (by positivity)]
  have h1 : x * 10 ^ nd ≤ ((m * 10 ^ nd : ℤ) : ℚ) := by
    push_cast
    exact mul_le_mul_of_nonneg_right h (by positivity)
  have h2 : rhe (x * 10 ^ nd) ≤ m * 10 ^ nd :=
    le_trans (rhe_le_ceil _) (Int.ceil_le.mpr h1)
  calc (rhe (x * 10 ^ nd) : ℚ) ≤ ((m * 10 ^ nd : ℤ) : ℚ) := by exact_mod_cast h2
    _ = (m : ℚ) * 10 ^ nd := by push_cast; ring

/-! ## List maximum and content-token helper lemmas -/

theorem foldl_max_bounds (l : List ℕ) :
    ∀ a : ℕ, a ≤ l.foldl max a ∧ ∀ x ∈ l, x ≤ l.foldl max a := by
  induction l with
  | nil => intro a; simp
  | cons b bs ih =>
    intro a
    refine ⟨le_trans (le_max_left a b) (ih (max a b)).1, ?_⟩
    intro x hx
    rcases List.mem_cons.mp hx with rfl | hx
    · exact le_trans (le_max_right a x) (ih (max a x)).1
    · exact (ih (max a b)).2 x hx

theorem foldl_max_le (l : List ℕ) :
    ∀ a N : ℕ, a ≤ N → (∀ x ∈ l, x ≤ N) → l.foldl max a ≤ N := by
  induction l with
  | nil => intro a N ha _; simpa using ha
  | cons b bs ih =>
    intro a N ha h
    exact ih (max a b) N (max_le ha (h b (List.mem_cons_self b bs)))
      (fun x hx => h x (List.mem_cons_of_mem b hx))

theorem contentForms_length (sentences : List USentence) :
    (contentForms sentences).length = total_tokens sentences := by
  unfold contentForms total_tokens
  rw [List.length_map, List.length_flatten, List.map_map]
  rfl

/-- C6: whenever no token's dependency relation matches a clause
relation (substring match), MLC, DCC and CPC are all 0.0 — the clause
denominators are guarded, so no division by zero happens. -/
theorem claim_C6_no_clause_division (sentences : List USentence)
    (h : ∀ s ∈ sentences, ∀ t ∈ s.tokens, is_clause t = false) :
    dictGet (LinguisticComplexityAnalyzer.analyze sentences) "MLC" = some (.F 0) ∧
    dictGet (LinguisticComplexityAnalyzer.analyze sentences) "DCC" = some (.F 0) ∧
    dictGet (LinguisticComplexityAnalyzer.analyze sentences) "CPC" = some (.F 0) := by
  have h0 : total_clauses sentences = 0 := by
    unfold total_clauses
    apply List.sum_eq_zero
    intro x hx
    rcases List.mem_map.mp hx with ⟨s, hs, rfl⟩
    rw [List.length_eq_zero, List.filter_eq_nil_iff]
    intro t ht
    simp [h s hs t ht]
  unfold LinguisticComplexityAnalyzer.analyze
  by_cases hs : sentences.isEmpty
  · rw [if_pos hs]
    exact ⟨rfl, rfl, rfl⟩
  · rw [if_neg hs]
    have hMLC : dictGet (_analyze_sentences sentences) "MLC" =
        some (.F (pyRound (if total_clauses sentences > 0 then
          (total_tokens sentences : ℚ) / (total_clauses sentences : ℚ) else 0) 2)) := rfl
    have hDCC : dictGet (_analyze_sentences sentences) "DCC" =
        some (.F (pyRound (if total_clauses sentences > 0 then
          (total_dependent_clauses sentences : ℚ) / (total_clauses sentences : ℚ) else 0) 2)) := rfl
    have hCPC : dictGet (_analyze_sentences sentences) "CPC" =
        some (.F (pyRound (if total_clauses sentences > 0 then
          (total_coordinated sentences : ℚ) / (total_clauses sentences : ℚ) else 0) 2)) := rfl
    refine ⟨?_, ?_, ?_⟩
    · rw [hMLC, h0]
      norm_num [pyRound_zero]
    · rw [hDCC, h0]
      norm_num [pyRound_zero]
    · rw [hCPC, h0]
      norm_num [pyRound_zero]

/-- Witness for C6 at a concrete clause-free sentence. -/
theorem claim_C6_no_clause_division_witness :
    (∀ s ∈ [(⟨[⟨"gato", "gato", "NOUN", "nsubj"⟩],
        DepTree.node ⟨"gato", "gato", "NOUN", "nsubj"⟩ []⟩ : USentence)],
      ∀ t ∈ s.tokens, is_clause t = false) ∧
    (dictGet (LinguisticComplexityAnalyzer.analyze
        [(⟨[⟨"gato", "gato", "NOUN", "nsubj"⟩],
          DepTree.node ⟨"gato", "gato", "NOUN", "nsubj"⟩ []⟩ : USentence)]) "MLC" =
        some (.F 0) ∧
      dictGet (LinguisticComplexityAnalyzer.analyze
        [(⟨[⟨"gato", "gato", "NOUN", "nsubj"⟩],
          DepTree.node ⟨"gato", "gato", "NOUN", "nsubj"⟩ []⟩ : USentence)]) "DCC" =
        some (.F 0) ∧
      dictGet (LinguisticComplexityAnalyzer.analyze
        [(⟨[⟨"gato", "gato", "NOUN", "nsubj"⟩],
          DepTree.node ⟨"gato", "gato", "NOUN", "nsubj"⟩ []⟩ : USentence)]) "CPC" =
        some (.F 0)) :=
  ⟨by decide, claim_C6_no_clause_division _ (by decide)⟩

/-- C5 counterexample: the claim "lexical_density always lies in
[0.0, 1.0]" fails.  A token with POS tag NOUN but dependency relation
exactly "punct" is counted as lexical but not as a content token, so a
two-token sentence (NOUN/punct plus NOUN/nsubj) yields lexical_density
= 2/1 = 2.0 > 1. -/
theorem claim_C5_counterexample :
    dictGet (LinguisticComplexityAnalyzer.analyze
      [(⟨[⟨"a", "a", "NOUN", "punct"⟩, ⟨"b", "b", "NOUN", "nsubj"⟩],
        DepTree.node ⟨"a", "a", "NOUN", "punct"⟩ []⟩ : USentence)]) "lexical_density" =
      some (.F 2) := by
  have h1 : dictGet (LinguisticComplexityAnalyzer.analyze
      [(⟨[⟨"a", "a", "NOUN", "punct"⟩, ⟨"b", "b", "NOUN", "nsubj"⟩],
        DepTree.node ⟨"a", "a", "NOUN", "punct"⟩ []⟩ : USentence)]) "lexical_density" =
      some (.F (pyRound (lexicalDensityValue
        [(⟨[⟨"a", "a", "NOUN", "punct"⟩, ⟨"b", "b", "NOUN", "nsubj"⟩],
          DepTree.node ⟨"a", "a", "NOUN", "punct"⟩ []⟩ : USentence)]) 4)) := rfl
  have htt : total_tokens
      [(⟨[⟨"a", "a", "NOUN", "punct"⟩, ⟨"b", "b", "NOUN", "nsubj"⟩],
        DepTree.node ⟨"a", "a", "NOUN", "punct"⟩ []⟩ : USentence)] = 1 := by decide
  have hlc : lexical_count
      [(⟨[⟨"a", "a", "NOUN", "punct"⟩, ⟨"b", "b", "NOUN", "nsubj"⟩],
        DepTree.node ⟨"a", "a", "NOUN", "punct"⟩ []⟩ : USentence)] = 2 := by decide
  have h2 : lexicalDensityValue
      [(⟨[⟨"a", "a", "NOUN", "punct"⟩, ⟨"b", "b", "NOUN", "nsubj"⟩],
        DepTree.node ⟨"a", "a", "NOUN", "punct"⟩ []⟩ : USentence)] = 2 := by
    unfold lexicalDensityValue
    rw [htt, hlc]
    norm_num
  rw [h1, h2]
  have h3 := pyRound_intCast 2 4
  norm_num at h3
  rw [h3]

/-- C5 (amended): for every non-empty sentence collection, `ttr` lies in
[0,1] and is 0 at zero content tokens; `lexical_density` is ≥ 0, is 0 at
zero content tokens, and lies in [0,1] *provided* every lexical token
(POS in NOUN/ADJ/VERB) is also a content token (deprel not exactly
"punct") — without that proviso the bound can fail (see the
counterexample). -/
theorem claim_C5_ttr_lexical_density (sentences : List USentence) (hne : sentences ≠ []) :
    dictGet (LinguisticComplexityAnalyzer.analyze sentences) "ttr" =
      some (.F (pyRound (ttrValue sentences) 4)) ∧
    0 ≤ pyRound (ttrValue sentences) 4 ∧ pyRound (ttrValue sentences) 4 ≤ 1 ∧
    (total_tokens sentences = 0 → pyRound (ttrValue sentences) 4 = 0) ∧
    dictGet (LinguisticComplexityAnalyzer.analyze sentences) "lexical_density" =
      some (.F (pyRound (lexicalDensityValue sentences) 4)) ∧
    0 ≤ pyRound (lexicalDensityValue sentences) 4 ∧
    ((∀ s ∈ sentences, ∀ t ∈ s.tokens, is_lexical t = true → t.deprel ≠ "punct") →
      pyRound (lexicalDensityValue sentences) 4 ≤ 1) ∧
    (total_tokens sentences = 0 → pyRound (lexicalDensityValue sentences) 4 = 0) := by
  have hEmp : ¬ (sentences.isEmpty = true) := fun hh => hne (List.isEmpty_iff.mp hh)
  have hgetTTR : dictGet (LinguisticComplexityAnalyzer.analyze sentences) "ttr" =
      some (.F (pyRound (ttrValue sentences) 4)) := by
    unfold LinguisticComplexityAnalyzer.analyze
    rw [if_neg hEmp]
    rfl
  have hgetLD : dictGet (LinguisticComplexityAnalyzer.analyze sentences) "lexical_density" =
      some (.F (pyRound (lexicalDensityValue sentences) 4)) := by
    unfold LinguisticComplexityAnalyzer.analyze
    rw [if_neg hEmp]
    rfl
  have httr0 : 0 ≤ ttrValue sentences := by
    unfold ttrValue
    split
    · positivity
    · exact le_refl 0
  have httr1 : ttrValue sentences ≤ 1 := by
    unfold ttrValue
    split
    · rename_i hcf
      rw [div_le_one (by exact_mod_cast List.length_pos.mpr hcf)]
      exact_mod_cast List.Sublist.length_le (List.dedup_sublist _)
    · norm_num
  have hld0 : 0 ≤ lexicalDensityValue sentences := by
    unfold lexicalDensityValue
    split
    · positivity
    · exact le_refl 0
  refine ⟨hgetTTR, pyRound_nonneg _ _ httr0, ?_, ?_, hgetLD, pyRound_nonneg _ _ hld0, ?_, ?_⟩
  · have := pyRound_le_int (ttrValue sentences) 4 1 (by exact_mod_cast httr1)
    simpa using this
  · intro htt
    have hcf : contentForms sentences = [] := by
      rw [← List.length_eq_zero, contentForms_length]
      exact htt
    have : ttrValue sentences = 0 := by
      unfold ttrValue
      rw [if_neg (by simp [hcf])]
    rw [this, pyRound_zero]
  · intro hlex
    have hcount : lexical_count sentences ≤ total_tokens sentences := by
      unfold lexical_count total_tokens
      apply List.sum_le_sum
      intro s hs
      rw [← List.countP_eq_length_filter, ← List.countP_eq_length_filter]
      apply List.countP_mono_left
      intro t ht hlt
      simpa using hlex s hs t ht hlt
    have hld1 : lexicalDensityValue sentences ≤ 1 := by
      unfold lexicalDensityValue
      split
      · rename_i htt
        rw [div_le_one (by exact_mod_cast htt)]
        exact_mod_cast hcount
      · norm_num
    have := pyRound_le_int (lexicalDensityValue sentences) 4 1 (by exact_mod_cast hld1)
    simpa using this
  · intro htt
    have : lexicalDensityValue sentences = 0 := by
      unfold lexicalDensityValue
      rw [if_neg (by omega)]
    rw [this, pyRound_zero]

/-- Witness for C5 (amended) at a concrete one-token sentence. -/
theorem claim_C5_ttr_lexical_density_witness :
    ([(⟨[⟨"gato", "gato", "NOUN", "nsubj"⟩],
        DepTree.node ⟨"gato", "gato", "NOUN", "nsubj"⟩ []⟩ : USentence)] ≠
        ([] : List USentence)) ∧
    (∀ s ∈ [(⟨[⟨"gato", "gato", "NOUN", "nsubj"⟩],
        DepTree.node ⟨"gato", "gato", "NOUN", "nsubj"⟩ []⟩ : USentence)],
      ∀ t ∈ s.tokens, is_lexical t = true → t.deprel ≠ "punct") ∧
    pyRound (lexicalDensityValue
      [(⟨[⟨"gato", "gato", "NOUN", "nsubj"⟩],
        DepTree.node ⟨"gato", "gato", "NOUN", "nsubj"⟩ []⟩ : USentence)]) 4 ≤ 1 :=
  ⟨List.cons_ne_nil _ _, by decide,
    (claim_C5_ttr_lexical_density _ (List.cons_ne_nil _ _)).2.2.2.2.2.2.1 (by decide)⟩

/-- C7: over the recursive leaf-0 / 1+max tree-depth measure,
profundidade_max ≥ profundidade_media ≥ 0 always holds, and both are 0
when every sentence's dependency tree is a single leaf token. -/
theorem claim_C7_depth_ordering (sentences : List USentence) :
    ∃ media : ℚ, ∃ maxd : ℤ,
      dictGet (LinguisticComplexityAnalyzer.analyze sentences) "profundidade_media" =
        some (.F media) ∧
      dictGet (LinguisticComplexityAnalyzer.analyze sentences) "profundidade_max" =
        some (.I maxd) ∧
      0 ≤ media ∧ media ≤ (maxd : ℚ) ∧
      ((∀ s ∈ sentences, ∃ t, s.tree = DepTree.node t []) → media = 0 ∧ maxd = 0) := by
  unfold LinguisticComplexityAnalyzer.analyze
  by_cases hs : sentences.isEmpty
  · rw [if_pos hs]
    exact ⟨0, 0, rfl, rfl, le_refl 0, by norm_num, fun _ => ⟨rfl, rfl⟩⟩
  · rw [if_neg hs]
    have hne : sentences ≠ [] := fun hh => hs (by rw [hh]; rfl)
    have hdep : depthsOf sentences ≠ [] := by
      unfold depthsOf
      simp [hne]
    refine ⟨pyRound (npMean (depthsOf sentences)) 2,
      (((depthsOf sentences).foldl max 0 : ℕ) : ℤ), ?_, ?_, ?_, ?_, ?_⟩
    · have h1 : dictGet (_analyze_sentences sentences) "profundidade_media" =
          some (.F (if depthsOf sentences ≠ [] then
            pyRound (npMean (depthsOf sentences)) 2 else 0)) := rfl
      rw [h1, if_pos hdep]
    · have h2 : dictGet (_analyze_sentences sentences) "profundidade_max" =
          some (.I (if depthsOf sentences ≠ [] then
            (((depthsOf sentences).foldl max 0 : ℕ) : ℤ) else 0)) := rfl
      rw [h2, if_pos hdep]
    · apply pyRound_nonneg
      unfold npMean
      positivity
    · have hmax := (foldl_max_bounds (depthsOf sentences) 0).2
      have hsum : (depthsOf sentences).sum ≤
          (depthsOf sentences).length * ((depthsOf sentences).foldl max 0) := by
        have := List.sum_le_card_nsmul (depthsOf sentences)
          ((depthsOf sentences).foldl max 0) hmax
        simpa [smul_eq_mul] using this
      have hlen : 0 < (depthsOf sentences).length := List.length_pos.mpr hdep
      have hmean : npMean (depthsOf sentences) ≤
          (((depthsOf sentences).foldl max 0 : ℕ) : ℚ) := by
        unfold npMean
        rw [div_le_iff₀ (by exact_mod_cast hlen)]
        calc ((depthsOf sentences).sum : ℚ)
            ≤ (((depthsOf sentences).length * ((depthsOf sentences).foldl max 0) : ℕ) : ℚ) := by
              exact_mod_cast hsum
          _ = _ := by push_cast; ring
      have := pyRound_le_int (npMean (depthsOf sentences)) 2
        (((depthsOf sentences).foldl max 0 : ℕ) : ℤ) (by exact_mod_cast hmean)
      exact_mod_cast this
    · intro hsingle
      have hzero : ∀ d ∈ depthsOf sentences, d = 0 := by
        intro d hd
        rcases List.mem_map.mp hd with ⟨s, hsin, rfl⟩
        obtain ⟨t, ht⟩ := hsingle s hsin
        rw [ht]
        simp [profundidade_maxima]
      constructor
      · have hsum0 : (depthsOf sentences).sum = 0 := List.sum_eq_zero hzero
        have : npMean (depthsOf sentences) = 0 := by
          unfold npMean
          rw [hsum0]
          simp
        rw [this, pyRound_zero]
      · have h1 : (depthsOf sentences).foldl max 0 ≤ 0 :=
          foldl_max_le _ 0 0 (le_refl 0) (fun x hx => le_of_eq (hzero x hx))
        have : (depthsOf sentences).foldl max 0 = 0 := Nat.le_zero.mp h1
        rw [this]
        rfl

/-- Witness for C7 at a concrete single-leaf sentence collection. -/
theorem claim_C7_depth_ordering_witness :
    ∃ media : ℚ, ∃ maxd : ℤ,
      dictGet (LinguisticComplexityAnalyzer.analyze
        [(⟨[⟨"oi", "oi", "INTJ", "root"⟩],
          DepTree.node ⟨"oi", "oi", "INTJ", "root"⟩ []⟩ : USentence)])
        "profundidade_media" = some (.F media) ∧
      dictGet (LinguisticComplexityAnalyzer.analyze
        [(⟨[⟨"oi", "oi", "INTJ", "root"⟩],
          DepTree.node ⟨"oi", "oi", "INTJ", "root"⟩ []⟩ : USentence)])
        "profundidade_max" = some (.I maxd) ∧
      media = 0 ∧ maxd = 0 := by
  obtain ⟨media, maxd, h1, h2, _, _, h5⟩ := claim_C7_depth_ordering
    [(⟨[⟨"oi", "oi", "INTJ", "root"⟩],
      DepTree.node ⟨"oi", "oi", "INTJ", "root"⟩ []⟩ : USentence)]
  obtain ⟨hm, hx⟩ := h5 (by
    intro s hsin
    rcases List.mem_cons.mp hsin with rfl | hsin
    · exact ⟨_, rfl⟩
    · simp at hsin)
  exact ⟨media, maxd, h1, h2, hm, hx⟩

/-! ## Lemma Extractor: fold/filter correspondence -/

theorem lemma_fold_tokens (tokens : List UToken) (acc : List String) :
    tokens.foldl (fun acc token =>
      if token.deprel = "punct" then acc
      else if token.deprel = "nummod" then acc
      else acc ++ [token.lemmaStr]) acc
    = acc ++ (tokens.filter
        (fun t => !(t.deprel == "punct") && !(t.deprel == "nummod"))).map UToken.lemmaStr := by
  induction tokens generalizing acc with
  | nil => simp
  | cons t ts ih =>
    by_cases h1 : t.deprel = "punct"
    · simp [h1, ih]
    · by_cases h2 : t.deprel = "nummod"
      · simp [h1, h2, ih]
      · simp [h1, h2, ih]

theorem lemma_fold_sentences (sentences : List USentence) (acc : List String) :
    sentences.foldl (fun acc sentence =>
      sentence.tokens.foldl (fun acc token =>
        if token.deprel = "punct" then acc
        else if token.deprel = "nummod" then acc
        else acc ++ [token.lemmaStr]) acc) acc
    = acc ++ (survivingTokens sentences).map UToken.lemmaStr := by
  induction sentences generalizing acc with
  | nil => simp [survivingTokens]
  | cons s ss ih =>
    rw [List.foldl_cons, lemma_fold_tokens, ih]
    simp [survivingTokens, List.filter_append]

/-- C8: the Lemma Extractor returns exactly the lemma forms of all
tokens whose relation is neither exactly "punct" nor exactly "nummod",
joined by single spaces, in the original sentence-and-token order with
repetitions preserved (it is a filter-then-map, so no deduplication);
when no token survives the filter the result is the empty string. -/
theorem claim_C8_extract_lemmas (sentences : List USentence) :
    extract_lemmas_string sentences =
      String.intercalate " " ((survivingTokens sentences).map UToken.lemmaStr) ∧
    (survivingTokens sentences = [] → extract_lemmas_string sentences = "") := by
  have h : extract_lemmas_string sentences =
      String.intercalate " " ((survivingTokens sentences).map UToken.lemmaStr) := by
    unfold extract_lemmas_string
    rw [lemma_fold_sentences]
    simp
  refine ⟨h, fun hs => ?_⟩
  rw [h, hs]
  rfl

/-- Witness for C8: a sentence holding a "nummod" token and a "punct"
token only — both are excluded, so the joined output is empty. -/
theorem claim_C8_extract_lemmas_witness :
    survivingTokens [(⟨[⟨"dois", "dois", "NUM", "nummod"⟩, ⟨".", ".", "PUNCT", "punct"⟩],
        DepTree.node ⟨"dois", "dois", "NUM", "nummod"⟩ []⟩ : USentence)] = [] ∧
    extract_lemmas_string [(⟨[⟨"dois", "dois", "NUM", "nummod"⟩, ⟨".", ".", "PUNCT", "punct"⟩],
        DepTree.node ⟨"dois", "dois", "NUM", "nummod"⟩ []⟩ : USentence)] = "" :=
  ⟨by decide, (claim_C8_extract_lemmas _).2 (by decide)⟩

/-! ## Stylometric Analyzer: Flesch Reading Ease -/

/-- C4: when the parse yields at least one sentence and at least one
non-punctuation/non-space token, flesch_reading_ease is exactly
248.835 − 1.015·(words/sentences) − 84.6·(syllables/words), with words
the non-punct/non-space token count, sentences the segmentation count
and syllables the Syllable Estimator summed over the word tokens'
surface text, rounded to 2 decimals; it is 0 whenever the sentence count
or the word count is zero. -/
theorem claim_C4_flesch_formula (doc : SpacyDoc) :
    (doc.sents.length = 0 → _calculate_flesch_reading_ease doc = 0) ∧
    ((doc.tokens.filter isWordToken).length = 0 → _calculate_flesch_reading_ease doc = 0) ∧
    (doc.sents.length ≠ 0 → (doc.tokens.filter isWordToken).length ≠ 0 →
      _calculate_flesch_reading_ease doc =
        pyRound ((248.835 : ℚ)
          - (1.015 : ℚ) * (((doc.tokens.filter isWordToken).length : ℚ) / (doc.sents.length : ℚ))
          - (84.6 : ℚ) *
            ((((doc.tokens.filter isWordToken).map (fun t => _count_syllables_pt t.text)).sum : ℚ)
              / ((doc.tokens.filter isWordToken).length : ℚ))) 2) := by
  refine ⟨?_, ?_, ?_⟩
  · intro h
    unfold _calculate_flesch_reading_ease
    rw [if_pos h]
  · intro h
    unfold _calculate_flesch_reading_ease
    by_cases hs : doc.sents.length = 0
    · rw [if_pos hs]
    · rw [if_neg hs, if_pos h]
  · intro hs hw
    unfold _calculate_flesch_reading_ease
    rw [if_neg hs, if_neg hw]

/-- Witness for C4 at a one-sentence, one-word document ("casa": 2
syllables, so the score is 248.835 − 1.015·1 − 84.6·2, rounded). -/
theorem claim_C4_flesch_formula_witness :
    ((SpacyDoc.mk [[⟨"casa", "NOUN", false, false⟩]] []).sents.length ≠ 0) ∧
    (((SpacyDoc.mk [[⟨"casa", "NOUN", false, false⟩]] []).tokens.filter isWordToken).length ≠ 0) ∧
    _calculate_flesch_reading_ease (SpacyDoc.mk [[⟨"casa", "NOUN", false, false⟩]] []) =
      pyRound ((248.835 : ℚ)
        - (1.015 : ℚ) *
          ((((SpacyDoc.mk [[⟨"casa", "NOUN", false, false⟩]] []).tokens.filter
              isWordToken).length : ℚ) /
            ((SpacyDoc.mk [[⟨"casa", "NOUN", false, false⟩]] []).sents.length : ℚ))
        - (84.6 : ℚ) *
          (((((SpacyDoc.mk [[⟨"casa", "NOUN", false, false⟩]] []).tokens.filter
              isWordToken).map (fun t => _count_syllables_pt t.text)).sum : ℚ) /
            (((SpacyDoc.mk [[⟨"casa", "NOUN", false, false⟩]] []).tokens.filter
              isWordToken).length : ℚ))) 2 :=
  ⟨by decide, by decide,
    (claim_C4_flesch_formula _).2.2 (by decide) (by decide)⟩

/-! ## Dictionary lemmas -/

theorem keysOf_append (d1 d2 : MetricsRecord) :
    keysOf (d1 ++ d2) = keysOf d1 ++ keysOf d2 :=
  List.map_append _ _ _

theorem keysOf_singleton (k : String) (v : MValue) : keysOf [(k, v)] = [k] := rfl

theorem dictSet_fresh (d : MetricsRecord) (k : String) (v : MValue)
    (h : ∀ p ∈ d, p.1 ≠ k) : dictSet d k v = d ++ [(k, v)] := by
  unfold dictSet
  have hany : d.any (fun p => p.1 == k) = false := by
    rw [List.any_eq_false]
    intro p hp
    simpa using h p hp
  simp [hany]

theorem dictSet_fresh_keys (d : MetricsRecord) (k : String) (v : MValue)
    (h : k ∉ keysOf d) : dictSet d k v = d ++ [(k, v)] := by
  apply dictSet_fresh
  intro p hp hEq
  exact h (hEq ▸ List.mem_map_of_mem Prod.fst hp)

theorem disjoint_by_keys {u d : MetricsRecord}
    (h : ∀ a ∈ keysOf u, a ∉ keysOf d) : ∀ p ∈ u, ∀ q ∈ d, q.1 ≠ p.1 := by
  intro p hp q hq hEq
  exact h p.1 (List.mem_map_of_mem Prod.fst hp) (hEq ▸ List.mem_map_of_mem Prod.fst hq)

theorem dictUpdate_disjoint (u : MetricsRecord) :
    ∀ d : MetricsRecord, (∀ p ∈ u, ∀ q ∈ d, q.1 ≠ p.1) → (keysOf u).Nodup →
      dictUpdate d u = d ++ u := by
  induction u with
  | nil => intro d _ _; simp [dictUpdate]
  | cons p ps ih =>
    intro d hdisj hnodup
    have hn := List.nodup_cons.mp (show (p.1 :: keysOf ps).Nodup from hnodup)
    show dictUpdate (dictSet d p.1 p.2) ps = d ++ p :: ps
    rw [dictSet_fresh d p.1 p.2 (fun q hq => hdisj p (List.mem_cons_self p ps) q hq)]
    have hd2 : ∀ r ∈ ps, ∀ q ∈ d ++ [(p.1, p.2)], q.1 ≠ r.1 := by
      intro r hr q hq
      rcases List.mem_append.mp hq with hq | hq
      · exact hdisj r (List.mem_cons_of_mem p hr) q hq
      · have hq' : q = (p.1, p.2) := by simpa using hq
        subst hq'
        intro hEq
        apply hn.1
        have hmem : r.1 ∈ keysOf ps := List.mem_map_of_mem Prod.fst hr
        simpa [keysOf, ← hEq] using hmem
    rw [ih (d ++ [(p.1, p.2)]) hd2 hn.2]
    simp

theorem dictUpdate_concat (d u : MetricsRecord)
    (h : ∀ a ∈ keysOf u, a ∉ keysOf d) (hn : (keysOf u).Nodup) :
    dictUpdate d u = d ++ u :=
  dictUpdate_disjoint u d (disjoint_by_keys h) hn

theorem keysOf_dictSet_mem (d : MetricsRecord) (k : String) (v : MValue)
    (h : k ∈ keysOf d) : keysOf (dictSet d k v) = keysOf d := by
  unfold dictSet
  have hany : d.any (fun p => p.1 == k) = true := by
    rcases List.mem_map.mp h with ⟨p, hp, rfl⟩
    exact List.any_eq_true.mpr ⟨p, hp, by simp⟩
  rw [if_pos hany]
  unfold keysOf
  rw [List.map_map]
  apply List.map_congr_left
  intro p hp
  simp only [Function.comp]
  split
  · rename_i hpk
    simp only [beq_iff_eq] at hpk
    simp [hpk]
  · rfl

theorem dictGet_append (d1 d2 : MetricsRecord) (k : String) :
    dictGet (d1 ++ d2) k = if k ∈ keysOf d1 then dictGet d1 k else dictGet d2 k := by
  induction d1 with
  | nil => simp [dictGet, keysOf]
  | cons p ps ih =>
    by_cases h : p.1 = k
    · have hmem : k ∈ keysOf (p :: ps) := by
        simp only [keysOf, List.map_cons, List.mem_cons]
        exact Or.inl h.symm
      rw [if_pos hmem]
      show dictGet (p :: (ps ++ d2)) k = dictGet (p :: ps) k
      unfold dictGet
      rw [List.find?_cons_of_pos _ (by simp [h]), List.find?_cons_of_pos _ (by simp [h])]
    · have e1 : dictGet ((p :: ps) ++ d2) k = dictGet (ps ++ d2) k := by
        unfold dictGet
        rw [List.cons_append, List.find?_cons_of_neg _ (by simp [h])]
      have e2 : dictGet (p :: ps) k = dictGet ps k := by
        unfold dictGet
        rw [List.find?_cons_of_neg _ (by simp [h])]
      by_cases hmem : k ∈ keysOf ps
      · have hmem' : k ∈ keysOf (p :: ps) := by
          simp only [keysOf, List.map_cons, List.mem_cons]
          exact Or.inr hmem
        rw [if_pos hmem', e1, ih, if_pos hmem, e2]
      · have hmem' : k ∉ keysOf (p :: ps) := by
          simp only [keysOf, List.map_cons, List.mem_cons]
          rintro (rfl | hh)
          · exact h rfl
          · exact hmem hh
        rw [if_neg hmem', e1, ih, if_neg hmem]

/-! ## Key sets of the component records -/

theorem keysOf_complexity (sentences : List USentence) :
    keysOf (LinguisticComplexityAnalyzer.analyze sentences) =
      ["MLC", "MLS", "DCC", "CPC", "profundidade_media", "profundidade_max",
       "ttr", "lexical_density", "token_quantity"] := by
  unfold LinguisticComplexityAnalyzer.analyze
  split
  · rfl
  · rfl

theorem keysOf_pos_frequencies (doc : SpacyDoc) :
    keysOf (_calculate_pos_frequencies doc) =
      ["noun_freq", "verb_freq", "adj_freq", "adv_freq"] := by
  simp only [_calculate_pos_frequencies]
  split <;> rfl

theorem keysOf_named_entities (doc : SpacyDoc) :
    keysOf (_extract_named_entities doc) = ["per_count", "org_count", "loc_count"] := rfl

theorem keysOf_lexical_metrics (doc : SpacyDoc) :
    keysOf (_calculate_lexical_metrics doc) = ["avg_word_length", "long_words_ratio"] := by
  simp only [_calculate_lexical_metrics]
  split <;> rfl

theorem keysOf_syntactic_metrics (doc : SpacyDoc) :
    keysOf (_calculate_syntactic_metrics doc) =
      ["sentence_length_variance", "punctuation_ratio"] := rfl

theorem stylometric_success_eq (text : String) (doc : SpacyDoc)
    (h : ¬ pyStrip text.data = []) :
    StylometricAnalyzer.analyze text (.ok doc) =
      _calculate_pos_frequencies doc ++ _extract_named_entities doc ++
      _calculate_lexical_metrics doc ++
      [("flesch_reading_ease", .F (_calculate_flesch_reading_ease doc))] ++
      _calculate_syntactic_metrics doc := by
  have e1 : dictUpdate ([] : MetricsRecord) (_calculate_pos_frequencies doc) =
      _calculate_pos_frequencies doc := by
    rw [dictUpdate_concat [] _ (by simp [keysOf])
      (by rw [keysOf_pos_frequencies]; decide)]
    exact List.nil_append _
  have e2 : dictUpdate (_calculate_pos_frequencies doc) (_extract_named_entities doc) =
      _calculate_pos_frequencies doc ++ _extract_named_entities doc :=
    dictUpdate_concat _ _
      (by rw [keysOf_named_entities, keysOf_pos_frequencies]; decide)
      (by rw [keysOf_named_entities]; decide)
  have e3 : dictUpdate (_calculate_pos_frequencies doc ++ _extract_named_entities doc)
      (_calculate_lexical_metrics doc) =
      _calculate_pos_frequencies doc ++ _extract_named_entities doc ++
        _calculate_lexical_metrics doc :=
    dictUpdate_concat _ _
      (by rw [keysOf_lexical_metrics, keysOf_append, keysOf_named_entities,
          keysOf_pos_frequencies]; decide)
      (by rw [keysOf_lexical_metrics]; decide)
  have e4 : dictSet (_calculate_pos_frequencies doc ++ _extract_named_entities doc ++
        _calculate_lexical_metrics doc) "flesch_reading_ease"
        (.F (_calculate_flesch_reading_ease doc)) =
      _calculate_pos_frequencies doc ++ _extract_named_entities doc ++
        _calculate_lexical_metrics doc ++
        [("flesch_reading_ease", .F (_calculate_flesch_reading_ease doc))] :=
    dictSet_fresh_keys _ _ _
      (by rw [keysOf_append, keysOf_append, keysOf_lexical_metrics, keysOf_named_entities,
          keysOf_pos_frequencies]; decide)
  have e5 : dictUpdate (_calculate_pos_frequencies doc ++ _extract_named_entities doc ++
        _calculate_lexical_metrics doc ++
        [("flesch_reading_ease", .F (_calculate_flesch_reading_ease doc))])
        (_calculate_syntactic_metrics doc) =
      _calculate_pos_frequencies doc ++ _extract_named_entities doc ++
        _calculate_lexical_metrics doc ++
        [("flesch_reading_ease", .F (_calculate_flesch_reading_ease doc))] ++
        _calculate_syntactic_metrics doc :=
    dictUpdate_concat _ _
      (by rw [keysOf_syntactic_metrics, keysOf_append, keysOf_append, keysOf_append,
          keysOf_lexical_metrics, keysOf_named_entities, keysOf_pos_frequencies,
          keysOf_singleton]; decide)
      (by rw [keysOf_syntactic_metrics]; decide)
  simp only [StylometricAnalyzer.analyze]
  rw [if_neg h, e1, e2, e3, e4, e5]

theorem stylometric_keys (text : String) (docResult : Except String SpacyDoc) :
    keysOf (StylometricAnalyzer.analyze text docResult) =
      ["noun_freq", "verb_freq", "adj_freq", "adv_freq",
       "per_count", "org_count", "loc_count",
       "avg_word_length", "long_words_ratio", "flesch_reading_ease",
       "sentence_length_variance", "punctuation_ratio"] := by
  by_cases h : pyStrip text.data = []
  · simp only [StylometricAnalyzer.analyze]
    rw [if_pos h]
    rfl
  · match docResult with
    | .error e =>
      simp only [StylometricAnalyzer.analyze]
      rw [if_neg h]
      rfl
    | .ok doc =>
      rw [stylometric_success_eq text doc h]
      rw [keysOf_append, keysOf_append, keysOf_append, keysOf_append,
        keysOf_syntactic_metrics, keysOf_lexical_metrics, keysOf_named_entities,
        keysOf_pos_frequencies, keysOf_singleton]
      rfl

theorem lemmatizer_keys (env : Env) (text : String) (o : Option String) :
    keysOf (LemmatizerAnalyzer.analyze env text o) = ["lemmas"] := by
  simp only [LemmatizerAnalyzer.analyze]
  split
  · rfl
  · split
    · rfl
    · split
      · rfl
      · rfl

/-! ## Orchestrator structure lemmas -/

theorem stylometric_override_keys (text : String) (dr : Except String SpacyDoc) (ner : Bool) :
    keysOf (if ner then StylometricAnalyzer.analyze text dr
      else dictSet (dictSet (dictSet (StylometricAnalyzer.analyze text dr)
        "per_count" (.I 0)) "org_count" (.I 0)) "loc_count" (.I 0)) =
      ["noun_freq", "verb_freq", "adj_freq", "adv_freq",
       "per_count", "org_count", "loc_count",
       "avg_word_length", "long_words_ratio", "flesch_reading_ease",
       "sentence_length_variance", "punctuation_ratio"] := by
  cases ner with
  | true => exact stylometric_keys text dr
  | false =>
    show keysOf (dictSet (dictSet (dictSet (StylometricAnalyzer.analyze text dr)
      "per_count" (.I 0)) "org_count" (.I 0)) "loc_count" (.I 0)) = _
    have k1 := keysOf_dictSet_mem (StylometricAnalyzer.analyze text dr) "per_count" (.I 0)
      (by rw [stylometric_keys]; decide)
    have k2 := keysOf_dictSet_mem (dictSet (StylometricAnalyzer.analyze text dr)
      "per_count" (.I 0)) "org_count" (.I 0) (by rw [k1, stylometric_keys]; decide)
    have k3 := keysOf_dictSet_mem (dictSet (dictSet (StylometricAnalyzer.analyze text dr)
      "per_count" (.I 0)) "org_count" (.I 0)) "loc_count" (.I 0)
      (by rw [k2, k1, stylometric_keys]; decide)
    rw [k3, k2, k1, stylometric_keys]

/-- Normal form of a fully successful dependency-parse run of
`TextMetricsAnalyzer.analyze`: the complexity record, then the lemmas
entry, then the (possibly NER-suppressed) stylometric record,
concatenated — the dict merges never overwrite because the key sets are
disjoint. -/
theorem analyze_merge_eq (env : Env) (text : String) (out : Option String)
    (udpipe_out : String) (sentences : List USentence) (ner leminc : Bool)
    (htext : ¬ pyStrip text.data = [])
    (hfetch : (match out with
      | none => env.fetchResult
      | some o => Except.ok o) = Except.ok udpipe_out)
    (hparse : env.parseResult udpipe_out = .ok sentences) :
    TextMetricsAnalyzer.analyze env true text out ner leminc =
      LinguisticComplexityAnalyzer.analyze sentences ++
      (if leminc then LemmatizerAnalyzer.analyze env text (some udpipe_out)
       else [("lemmas", .S "")]) ++
      (if ner then StylometricAnalyzer.analyze text env.docResult
       else dictSet (dictSet (dictSet (StylometricAnalyzer.analyze text env.docResult)
         "per_count" (.I 0)) "org_count" (.I 0)) "loc_count" (.I 0)) := by
  have e1 : dictUpdate ([] : MetricsRecord) (LinguisticComplexityAnalyzer.analyze sentences) =
      LinguisticComplexityAnalyzer.analyze sentences := by
    rw [dictUpdate_concat [] _ (by simp [keysOf]) (by rw [keysOf_complexity]; decide)]
    exact List.nil_append _
  have em2 : (if leminc then
        dictUpdate (LinguisticComplexityAnalyzer.analyze sentences)
          (LemmatizerAnalyzer.analyze env text (some udpipe_out))
      else dictSet (LinguisticComplexityAnalyzer.analyze sentences) "lemmas" (.S "")) =
      LinguisticComplexityAnalyzer.analyze sentences ++
        (if leminc then LemmatizerAnalyzer.analyze env text (some udpipe_out)
         else [("lemmas", .S "")]) := by
    cases leminc with
    | true =>
      exact dictUpdate_concat _ _
        (by rw [lemmatizer_keys, keysOf_complexity]; decide)
        (by rw [lemmatizer_keys]; decide)
    | false =>
      exact dictSet_fresh_keys _ _ _ (by rw [keysOf_complexity]; decide)
  have hmid : keysOf (if leminc then LemmatizerAnalyzer.analyze env text (some udpipe_out)
      else [("lemmas", (MValue.S ""))]) = ["lemmas"] := by
    cases leminc with
    | true => exact lemmatizer_keys env text (some udpipe_out)
    | false => rfl
  have efin : dictUpdate (LinguisticComplexityAnalyzer.analyze sentences ++
        (if leminc then LemmatizerAnalyzer.analyze env text (some udpipe_out)
         else [("lemmas", .S "")]))
      (if ner then StylometricAnalyzer.analyze text env.docResult
       else dictSet (dictSet (dictSet (StylometricAnalyzer.analyze text env.docResult)
         "per_count" (.I 0)) "org_count" (.I 0)) "loc_count" (.I 0)) =
      LinguisticComplexityAnalyzer.analyze sentences ++
        (if leminc then LemmatizerAnalyzer.analyze env text (some udpipe_out)
         else [("lemmas", .S "")]) ++
      (if ner then StylometricAnalyzer.analyze text env.docResult
       else dictSet (dictSet (dictSet (StylometricAnalyzer.analyze text env.docResult)
         "per_count" (.I 0)) "org_count" (.I 0)) "loc_count" (.I 0)) :=
    dictUpdate_concat _ _
      (by rw [stylometric_override_keys, keysOf_append, keysOf_complexity, hmid]; decide)
      (by rw [stylometric_override_keys]; decide)
  simp only [TextMetricsAnalyzer.analyze, htext, if_true, if_false, hfetch, hparse,
    e1, em2, efin]

/-- C9: with dependency-parse mode enabled, no annotation supplied and
non-empty text, a failing UDPipe fetch — or a successful fetch whose
annotation then fails to parse — makes `analyze` return the full-default
record; the failure never escapes (the model's `analyze` is a total
function into MetricsRecord, so no exception can propagate). -/
theorem claim_C9_failure_degrades (env : Env) (text : String) (ner leminc : Bool)
    (htext : ¬ (text.data.all pyIsSpace = true))
    (hfail : (∃ e, env.fetchResult = .error e) ∨
      (∃ a e, env.fetchResult = .ok a ∧ env.parseResult a = .error e)) :
    TextMetricsAnalyzer.analyze env true text none ner leminc = _get_empty_metrics := by
  have hstrip : ¬ pyStrip text.data = [] := fun hh => htext ((pyStrip_eq_nil_iff _).mp hh)
  rcases hfail with ⟨e, he⟩ | ⟨a, e, ha, hpe⟩
  · simp only [TextMetricsAnalyzer.analyze, hstrip, if_true, if_false, he]
  · simp only [TextMetricsAnalyzer.analyze, hstrip, if_true, if_false, ha, hpe]

/-- Witness for C9 with a concrete fetch-failing oracle. -/
theorem claim_C9_failure_degrades_witness :
    (¬ (("x" : String).data.all pyIsSpace = true)) ∧
    ((∃ e, exEnvFetchFail.fetchResult = .error e) ∨
      (∃ a e, exEnvFetchFail.fetchResult = .ok a ∧
        exEnvFetchFail.parseResult a = .error e)) ∧
    TextMetricsAnalyzer.analyze exEnvFetchFail true "x" none true true = _get_empty_metrics :=
  ⟨by decide, Or.inl ⟨"boom", rfl⟩,
    claim_C9_failure_degrades exEnvFetchFail "x" true true (by decide)
      (Or.inl ⟨"boom", rfl⟩)⟩

/-- Helper for C1: over every exception oracle, every mode and every
argument combination, the key list of the record `analyze` returns is a
permutation of the §6 schema `metricKeys`. -/
theorem analyze_keys_perm (env : Env) (ue : Bool) (text : String)
    (out : Option String) (ner leminc : Bool) :
    List.Perm (keysOf (TextMetricsAnalyzer.analyze env ue text out ner leminc)) metricKeys := by
  by_cases htext : pyStrip text.data = []
  · simp only [TextMetricsAnalyzer.analyze, htext, if_true]
    exact List.Perm.refl _
  · cases ue with
    | false =>
      have em : dictUpdate (dictSet ([] : MetricsRecord) "lemmas" (.S ""))
          [("MLC", .F 0), ("MLS", .F 0), ("DCC", .F 0), ("CPC", .F 0),
           ("profundidade_media", .F 0), ("profundidade_max", .I 0),
           ("ttr", .F 0), ("lexical_density", .F 0), ("token_quantity", .I 0)] =
          [("lemmas", MValue.S ""), ("MLC", .F 0), ("MLS", .F 0), ("DCC", .F 0), ("CPC", .F 0),
           ("profundidade_media", .F 0), ("profundidade_max", .I 0),
           ("ttr", .F 0), ("lexical_density", .F 0), ("token_quantity", .I 0)] := by decide
      have efin := dictUpdate_concat
        [("lemmas", MValue.S ""), ("MLC", .F 0), ("MLS", .F 0), ("DCC", .F 0), ("CPC", .F 0),
         ("profundidade_media", .F 0), ("profundidade_max", .I 0),
         ("ttr", .F 0), ("lexical_density", .F 0), ("token_quantity", .I 0)]
        (if ner then StylometricAnalyzer.analyze text env.docResult
         else dictSet (dictSet (dictSet (StylometricAnalyzer.analyze text env.docResult)
           "per_count" (.I 0)) "org_count" (.I 0)) "loc_count" (.I 0))
        (by rw [stylometric_override_keys]; decide)
        (by rw [stylometric_override_keys]; decide)
      simp only [TextMetricsAnalyzer.analyze, htext, Bool.false_eq_true, if_true, if_false,
        em, efin]
      rw [keysOf_append, stylometric_override_keys]
      decide
    | true =>
      have hfetch : ∀ (udpipe_out : String),
          (match out with
            | none => env.fetchResult
            | some o => Except.ok o) = Except.ok udpipe_out →
          List.Perm (keysOf (TextMetricsAnalyzer.analyze env true text out ner leminc))
            metricKeys := by
        intro udpipe_out hf
        cases hp : env.parseResult udpipe_out with
        | error e =>
          simp only [TextMetricsAnalyzer.analyze, htext, if_true, if_false, hf, hp]
          exact List.Perm.refl _
        | ok sentences =>
          rw [analyze_merge_eq env text out udpipe_out sentences ner leminc htext hf hp]
          rw [keysOf_append, keysOf_append, keysOf_complexity, stylometric_override_keys]
          have hmid : keysOf (if leminc then LemmatizerAnalyzer.analyze env text (some udpipe_out)
              else [("lemmas", (MValue.S ""))]) = ["lemmas"] := by
            cases leminc with
            | true => exact lemmatizer_keys env text (some udpipe_out)
            | false => rfl
          rw [hmid]
          decide
      cases out with
      | some o => exact hfetch o rfl
      | none =>
        cases hf : env.fetchResult with
        | error e =>
          simp only [TextMetricsAnalyzer.analyze, htext, if_true, if_false, hf]
          exact List.Perm.refl _
        | ok a => exact hfetch a hf

/-- C1: for every input text, every exception oracle and every
combination of the optional arguments (annotation supplied or not,
include_ner, include_lemmatization, dependency-parse mode enabled or
disabled), `analyze` returns a record whose key set is exactly the 22
keys of the §6 schema; and on empty or whitespace-only text it returns
the literal full-default record (0.0 / 0 / "" values). -/
theorem claim_C1_total_domain :
    (∀ (env : Env) (ue : Bool) (text : String) (out : Option String) (ner leminc : Bool),
      List.Perm (keysOf (TextMetricsAnalyzer.analyze env ue text out ner leminc)) metricKeys) ∧
    (∀ (env : Env) (ue : Bool) (out : Option String) (ner leminc : Bool) (text : String),
      text.data.all pyIsSpace →
      TextMetricsAnalyzer.analyze env ue text out ner leminc = _get_empty_metrics) := by
  refine ⟨analyze_keys_perm, ?_⟩
  intro env ue out ner leminc text htext
  simp only [TextMetricsAnalyzer.analyze, (pyStrip_eq_nil_iff text.data).mpr htext, if_true]

/-- Witness for C1 at the empty string with a concrete benign oracle. -/
theorem claim_C1_total_domain_witness :
    (("" : String).data.all pyIsSpace = true) ∧
    TextMetricsAnalyzer.analyze exEnvOk true "" none true true = _get_empty_metrics :=
  ⟨by decide, claim_C1_total_domain.2 exEnvOk true none true true "" (by decide)⟩

/-- C10: when the orchestrator-side parse succeeds but the Lemma
Extractor's own re-parse fails, the returned record keeps every
complexity metric value and only the lemmas key degrades to "" — the
lemmatizer catches its own exceptions and returns the empty-lemmas
record, so a lemmatization-internal failure never degrades the whole
record to full defaults. -/
theorem claim_C10_lemmatizer_isolation (env : Env) (text udpipe_out : String)
    (sentences : List USentence) (e : String) (ner : Bool)
    (htext : ¬ (text.data.all pyIsSpace = true))
    (hparse : env.parseResult udpipe_out = .ok sentences)
    (hlemma : env.lemmaParseResult udpipe_out = .error e) :
    dictGet (TextMetricsAnalyzer.analyze env true text (some udpipe_out) ner true) "lemmas" =
      some (.S "") ∧
    ∀ k ∈ keysOf (LinguisticComplexityAnalyzer.analyze sentences),
      dictGet (TextMetricsAnalyzer.analyze env true text (some udpipe_out) ner true) k =
        dictGet (LinguisticComplexityAnalyzer.analyze sentences) k := by
  have hstrip : ¬ pyStrip text.data = [] := fun hh => htext ((pyStrip_eq_nil_iff _).mp hh)
  have hlemrec : LemmatizerAnalyzer.analyze env text (some udpipe_out) =
      [("lemmas", .S "")] := by
    simp only [LemmatizerAnalyzer.analyze, hstrip, if_true, if_false, hlemma]
  have hmerge := analyze_merge_eq env text (some udpipe_out) udpipe_out sentences ner true
    hstrip rfl hparse
  rw [hlemrec] at hmerge
  have hmerge' : TextMetricsAnalyzer.analyze env true text (some udpipe_out) ner true =
      LinguisticComplexityAnalyzer.analyze sentences ++ [("lemmas", .S "")] ++
      (if ner then StylometricAnalyzer.analyze text env.docResult
       else dictSet (dictSet (dictSet (StylometricAnalyzer.analyze text env.docResult)
         "per_count" (.I 0)) "org_count" (.I 0)) "loc_count" (.I 0)) := hmerge
  constructor
  · rw [hmerge', dictGet_append,
      if_pos (by rw [keysOf_append, keysOf_complexity, keysOf_singleton]; decide),
      dictGet_append, if_neg (by rw [keysOf_complexity]; decide)]
    rfl
  · intro k hk
    rw [keysOf_complexity] at hk
    have hk1 : k ∈ keysOf (LinguisticComplexityAnalyzer.analyze sentences) := by
      rw [keysOf_complexity]
      exact hk
    rw [hmerge', dictGet_append,
      if_pos (by rw [keysOf_append]; exact List.mem_append_left _ hk1),
      dictGet_append, if_pos hk1]

/-- Witness for C10 with a concrete lemmatizer-failing oracle. -/
theorem claim_C10_lemmatizer_isolation_witness :
    (¬ (("x" : String).data.all pyIsSpace = true)) ∧
    exEnvLemmaFail.parseResult "" = .ok [exSentenceGato] ∧
    exEnvLemmaFail.lemmaParseResult "" = .error "boom" ∧
    dictGet (TextMetricsAnalyzer.analyze exEnvLemmaFail true "x" (some "") true true)
      "lemmas" = some (.S "") ∧
    dictGet (TextMetricsAnalyzer.analyze exEnvLemmaFail true "x" (some "") true true)
      "MLC" = dictGet (LinguisticComplexityAnalyzer.analyze [exSentenceGato]) "MLC" := by
  have h := claim_C10_lemmatizer_isolation exEnvLemmaFail "x" "" [exSentenceGato] "boom" true
    (by decide) rfl rfl
  exact ⟨by decide, rfl, rfl, h.1,
    h.2 "MLC" (by rw [keysOf_complexity]; decide)⟩

/-! ## UDPipe client retry behaviour -/

/-- C2 counterexample: the claim "protocol errors fail immediately with
no further retry attempts" is false.  With max_retries = 3, a non-success
HTTP status on the first attempt is caught by the catch-all
`except Exception` branch and retried: the second attempt succeeds, the
call returns its annotation, and two attempts were performed. -/
theorem claim_C2_counterexample :
    generate_one_response
      [.response 500 none, .response 200 (some "parsed"), .response 200 (some "x")] =
      (Except.ok "parsed", 2) := rfl

/-- C2 (amended): retries up to the configured bound apply to *every*
failure kind alike — timeouts, transport errors, non-success HTTP
statuses and payloads missing the `result` field.  After any prefix of
failing attempts, the first successful attempt returns its annotation
(having consumed prefix-length + 1 attempts); if all attempts fail —
protocol errors included — the call fails only after performing exactly
max_retries attempts. -/
theorem claim_C2_retry_policy :
    (∀ (pre : List AttemptOutcome) (o : AttemptOutcome) (rest : List AttemptOutcome)
        (r : String),
      (∀ a ∈ pre, attemptFails a) → attemptResult o = some r →
      generate_one_response (pre ++ o :: rest) = (.ok r, pre.length + 1)) ∧
    (∀ outcomes : List AttemptOutcome, outcomes ≠ [] →
      (∀ a ∈ outcomes, attemptFails a) →
      ∃ e, generate_one_response outcomes = (.error e, outcomes.length)) := by
  constructor
  · intro pre
    induction pre with
    | nil =>
      intro o rest r _ hres
      rcases o with _ | _ | ⟨status, result?⟩
      · simp [attemptResult] at hres
      · simp [attemptResult] at hres
      · by_cases hst : status = 200
        · subst hst
          simp only [attemptResult, if_pos rfl] at hres
          subst hres
          simp [generate_one_response]
        · rw [attemptResult, if_neg hst] at hres
          exact absurd hres (by simp)
    | cons a pre' ih =>
      intro o rest r hall hres
      have hne : pre' ++ o :: rest ≠ [] := by simp
      have hfa : attemptFails a = true := hall a (List.mem_cons_self a pre')
      have hrec := ih o rest r (fun x hx => hall x (List.mem_cons_of_mem a hx)) hres
      rcases a with _ | _ | ⟨status, result?⟩
      · rw [List.cons_append]
        simp only [generate_one_response, if_neg hne, hrec]
        simp
      · rw [List.cons_append]
        simp only [generate_one_response, if_neg hne, hrec]
        simp
      · by_cases hst : status = 200
        · subst hst
          have hnone : result? = none := by
            simpa [attemptFails, attemptResult, Option.isNone_iff_eq_none] using hfa
          subst hnone
          rw [List.cons_append]
          simp only [generate_one_response, if_neg hne, hrec]
          simp
        · rw [List.cons_append]
          simp only [generate_one_response, if_pos hst, if_neg hne, hrec]
          simp [hst]
  · intro outcomes
    induction outcomes with
    | nil => intro hne; exact absurd rfl hne
    | cons o rest ih =>
      intro _ hall
      have hfo : attemptFails o = true := hall o (List.mem_cons_self o rest)
      by_cases hrest : rest = []
      · subst hrest
        rcases o with _ | _ | ⟨status, result?⟩
        · exact ⟨"Request timed out after all retries", by simp [generate_one_response]⟩
        · exact ⟨"Request failed after all retries", by simp [generate_one_response]⟩
        · by_cases hst : status = 200
          · subst hst
            have hnone : result? = none := by
              simpa [attemptFails, attemptResult, Option.isNone_iff_eq_none] using hfo
            subst hnone
            exact ⟨"No result in response", by simp [generate_one_response]⟩
          · exact ⟨"HTTP Error", by simp [generate_one_response, hst]⟩
      · obtain ⟨e, he⟩ := ih hrest (fun x hx => hall x (List.mem_cons_of_mem o hx))
        refine ⟨e, ?_⟩
        rcases o with _ | _ | ⟨status, result?⟩
        · simp only [generate_one_response, if_neg hrest, he]
          simp
        · simp only [generate_one_response, if_neg hrest, he]
          simp
        · by_cases hst : status = 200
          · subst hst
            have hnone : result? = none := by
              simpa [attemptFails, attemptResult, Option.isNone_iff_eq_none] using hfo
            subst hnone
            simp only [generate_one_response, if_neg hrest, he]
            simp
          · simp only [generate_one_response, if_pos hst, if_neg hrest, he]
            simp [hst]

/-- Witness for C2 (amended): one protocol-failing attempt followed by a
successful one — the protocol error is retried and the call succeeds on
the second attempt. -/
theorem claim_C2_retry_policy_witness :
    (∀ a ∈ [AttemptOutcome.response 500 none], attemptFails a) ∧
    attemptResult (.response 200 (some "ok")) = some "ok" ∧
    generate_one_response [.response 500 none, .response 200 (some "ok")] =
      (.ok "ok", 2) := by
  refine ⟨by decide, by decide, ?_⟩
  have h := claim_C2_retry_policy.1 [.response 500 none] (.response 200 (some "ok")) [] "ok"
    (by decide) (by decide)
  simpa using h

end TextMetrics
